import Mathlib

/-!
Shallow embedding of the insurance-management authentication service:
the User model with its pre-save password hook (src/models/User.js),
the express-validator rule sets and sanitizers of the auth routes
(src/routes/authRoutes.js), the register / login / getMe controllers
(src/controllers/authController.js), the `protect` middleware
(src/middlewares/authMiddleware.js) and the global error handler
(src/middlewares/errorMiddleware.js).

Modelling conventions:
* the credential store is a `List User`; `findOne`/`findById` become
  `List.find?`;
* bcrypt is abstracted as an environment pair `bhash`/`bcompare`
  (hashing is a pure function of the plaintext in the model; the salt
  is irrelevant to the claims), and the JWT signer as `sign : Nat → String`;
* JavaScript string lowercasing (mongoose `lowercase: true` setters,
  applied both on save and — since Mongoose 6 — to query filters, and the
  lowercasing part of express-validator's `normalizeEmail`) is modelled
  by `strLower` (ASCII `toLowerCase`);
* `normalizeEmail` models the validator.js defaults (the route file's
  comment mentions the Gmail part: "Convert to lowercase, remove dots
  from Gmail"): lowercasing, Gmail dot and +-subaddress removal with
  googlemail→gmail conversion, +-subaddress removal for the iCloud and
  Outlook.com domain families, and ---subaddress removal for the Yahoo
  family;
* dates carry only year/month/day; the HTTP layer is elided, a handler
  is a pure function from its inputs to a structured `Response`.
-/

/-- A calendar date as the JavaScript `Date` accessors expose it:
`getFullYear` / month / day. -/
structure SDate where
  year : Int
  month : Nat
  day : Nat
deriving Repr, DecidableEq

/-- The nested address sub-document of the User schema. -/
structure Address where
  street : String
  city : String
  state : String
  zipCode : String
deriving Repr, DecidableEq

/-- A stored User document (src/models/User.js).  `password` holds the
digest; `commissionRate` and `assignedCustomers` are irrelevant to every
claim and elided; timestamps are abstracted to a `Nat`. -/
structure User where
  id : Nat
  name : String
  email : String
  password : String
  phone : String
  dateOfBirth : Option SDate
  address : Address
  role : String
  isActive : Bool
  createdAt : Nat
deriving Repr, DecidableEq

/-- The pre-save hook of the User schema, control flow kept faithful to
the source: the guard `if (!this.isModified('password'))` calls `next()`
but does NOT return, so the bcrypt hashing below it executes on every
save, and `next` ends up called twice on the unmodified-password path.
Returns the saved document together with the number of `next()` calls. -/
def preSaveHook (bhash : String → String) (isModifiedPassword : Bool)
    (doc : User) : User × Nat :=
  let nextCalls := if !isModifiedPassword then 1 else 0
  ({ doc with password := bhash doc.password }, nextCalls + 1)

/-- The `comparePassword` instance method: bcrypt.compare of the entered
plaintext against the stored digest, with bcrypt abstracted as `bcompare`. -/
def comparePassword (bcompare : String → String → Bool) (u : User)
    (enteredPassword : String) : Bool :=
  bcompare enteredPassword u.password

/-!
The JavaScript string operations the service relies on, modelled as
structurally recursive functions over the character list of a `String`
(core `String.toLower`, `trim`, `split`, … are position-based and do
not reduce inside the kernel; these list-based versions compute the
same strings and evaluate by `decide`).
-/

/-- JS `toLowerCase()` (ASCII range, as every email/role/message in the
service is ASCII). -/
def strLower (s : String) : String :=
  String.mk (s.data.map Char.toLower)

/-- JS `trim()`: strip whitespace from both ends. -/
def strTrim (s : String) : String :=
  String.mk
    (((s.data.dropWhile Char.isWhitespace).reverse.dropWhile
        Char.isWhitespace).reverse)

/-- Helper of `splitOnChar`, accumulating the current piece reversed. -/
def splitOnCharAux (sep : Char) : List Char → List Char → List String
  | [], acc => [String.mk acc.reverse]
  | c :: rest, acc =>
      if c == sep then
        String.mk acc.reverse :: splitOnCharAux sep rest []
      else splitOnCharAux sep rest (c :: acc)

/-- JS `split(sep)` for a one-character separator (the bearer-token
split on `' '`, and the `'@'`, `'+'` and `'-'` splits inside the email
normalizer). -/
def splitOnChar (sep : Char) (s : String) : List String :=
  splitOnCharAux sep s.data []

/-- JS `startsWith(p)`. -/
def strStartsWith (s p : String) : Bool :=
  p.data.isPrefixOf s.data

/-- JS `endsWith(p)`. -/
def strEndsWith (s p : String) : Bool :=
  p.data.isSuffixOf s.data

/-- Membership of a character in a string. -/
def strContainsChar (s : String) (c : Char) : Bool :=
  s.data.any (fun d => d == c)

/-- JS `replace(/\./g, '')` on the Gmail local part: drop every dot. -/
def removeDots (s : String) : String :=
  String.mk (s.data.filter (fun c => !(c == '.')))

/-- JS `split('+')[0]`: the local part before its +-subaddress. -/
def stripPlusSubaddress (lpart : String) : String :=
  (splitOnChar '+' lpart).headD lpart

/-- Yahoo subaddress removal of validator.js: split the local part on
`-` and, when there is more than one component, drop the last one
(`components.slice(0, -1).join('-')`). -/
def stripYahooSubaddress (lpart : String) : String :=
  let components := splitOnChar '-' lpart
  if 1 < components.length then
    String.intercalate "-" components.dropLast
  else lpart

/-- The iCloud domain family of validator.js `normalizeEmail`. -/
def icloudDomains : List String := ["icloud.com", "me.com"]

/-- The Outlook.com domain family of validator.js `normalizeEmail`. -/
def outlookDomains : List String :=
  ["hotmail.at", "hotmail.be", "hotmail.ca", "hotmail.cl",
   "hotmail.co.il", "hotmail.co.nz", "hotmail.co.th", "hotmail.co.uk",
   "hotmail.com", "hotmail.com.ar", "hotmail.com.au", "hotmail.com.br",
   "hotmail.com.gr", "hotmail.com.mx", "hotmail.com.pe",
   "hotmail.com.tr", "hotmail.com.vn", "hotmail.cz", "hotmail.de",
   "hotmail.dk", "hotmail.es", "hotmail.fr", "hotmail.hu",
   "hotmail.id", "hotmail.ie", "hotmail.in", "hotmail.it",
   "hotmail.jp", "hotmail.kr", "hotmail.lv", "hotmail.my",
   "hotmail.ph", "hotmail.pt", "hotmail.sa", "hotmail.sg",
   "hotmail.sk", "live.be", "live.co.uk", "live.com", "live.com.ar",
   "live.com.mx", "live.de", "live.es", "live.eu", "live.fr",
   "live.it", "live.nl", "msn.com", "outlook.at", "outlook.be",
   "outlook.cl", "outlook.co.il", "outlook.co.nz", "outlook.co.th",
   "outlook.com", "outlook.com.ar", "outlook.com.au",
   "outlook.com.br", "outlook.com.gr", "outlook.com.pe",
   "outlook.com.tr", "outlook.com.vn", "outlook.cz", "outlook.de",
   "outlook.dk", "outlook.es", "outlook.fr", "outlook.hu",
   "outlook.id", "outlook.ie", "outlook.in", "outlook.it",
   "outlook.jp", "outlook.kr", "outlook.lv", "outlook.my",
   "outlook.ph", "outlook.pt", "outlook.sa", "outlook.sg",
   "outlook.sk", "passport.com"]

/-- The Yahoo domain family of validator.js `normalizeEmail`. -/
def yahooDomains : List String :=
  ["rocketmail.com", "yahoo.ca", "yahoo.co.uk", "yahoo.com",
   "yahoo.de", "yahoo.fr", "yahoo.in", "yahoo.it", "ymail.com"]

/-- express-validator `normalizeEmail` with the validator.js default
options, dispatching on the (lowercased) domain as the library does:
Gmail/googlemail — drop the +-subaddress, drop the dots, convert the
domain to gmail.com; the iCloud and Outlook.com families — drop the
+-subaddress; the Yahoo family — drop the trailing ---subaddress;
everything else (including the Yandex family, where the defaults only
lowercase) — lowercase only, which `all_lowercase` already did. -/
def normalizeEmail (e : String) : String :=
  let low := strLower e
  match splitOnChar '@' low with
  | [lpart, dpart] =>
      if dpart = "gmail.com" || dpart = "googlemail.com" then
        removeDots (stripPlusSubaddress lpart) ++ "@" ++ "gmail.com"
      else if icloudDomains.contains dpart then
        stripPlusSubaddress lpart ++ "@" ++ dpart
      else if outlookDomains.contains dpart then
        stripPlusSubaddress lpart ++ "@" ++ dpart
      else if yahooDomains.contains dpart then
        stripYahooSubaddress lpart ++ "@" ++ dpart
      else low
  | _ => low

/-- Model of the `isEmail` check: one `@`, non-empty local part, domain
with a dot that neither starts nor ends it. -/
def isEmailShaped (s : String) : Bool :=
  match splitOnChar '@' s with
  | [lpart, dpart] =>
      lpart ≠ "" && dpart ≠ "" && strContainsChar dpart '.' &&
        !strStartsWith dpart "." && !strEndsWith dpart "."
  | _ => false

/-- Ten-digit phone check (`/^[0-9]{10}$/`). -/
def isTenDigits (s : String) : Bool :=
  s.data.length = 10 && s.data.all Char.isDigit

/-- Six-digit zip check (`/^[0-9]{6}$/`). -/
def isSixDigits (s : String) : Bool :=
  s.data.length = 6 && s.data.all Char.isDigit

/-- The custom age rule exactly as coded: `age` is the difference of the
calendar years only (`today.getFullYear() - birthDate.getFullYear()`),
and the input passes unless `age < 18`. -/
def ageCheckPasses (today dob : SDate) : Bool :=
  !(today.year - dob.year < 18)

/-- The actual age in completed years at `today` of someone born on
`dob`: the year difference, minus one when the birthday has not yet
occurred this year.  (Used to state what "younger than 18 at call time"
means; not part of the code.) -/
def actualAgeYears (today dob : SDate) : Int :=
  today.year - dob.year -
    (if today.month < dob.month ||
        (today.month == dob.month && today.day < dob.day) then 1 else 0)

/-- The registration input as received in `req.body`.  `dateOfBirth` is
`none` when missing or unparseable. -/
structure RegisterInput where
  name : String
  email : String
  password : String
  phone : String
  dateOfBirth : Option SDate
  address : Address
  role : Option String
deriving Repr, DecidableEq

/-- The login input. -/
structure LoginInput where
  email : String
  password : String
deriving Repr, DecidableEq

/-- Errors of the `name` chain: trim, notEmpty, isLength 2..50. -/
def nameErrors (name : String) : List String :=
  let v := strTrim name
  (if v = "" then ["Name is required"] else []) ++
    (if v.data.length < 2 || 50 < v.data.length then
      ["Name must be between 2 and 50 characters"] else [])

/-- Errors of the `email` chain: trim, notEmpty, isEmail (the
`normalizeEmail` sanitizer runs after validation). -/
def emailErrors (email : String) : List String :=
  let v := strTrim email
  (if v = "" then ["Email is required"] else []) ++
    (if !isEmailShaped v then ["Please provide a valid email"] else [])

/-- Errors of the `password` chain: notEmpty, isLength min 6, and the
lowercase/uppercase/digit lookahead regex. -/
def passwordErrors (p : String) : List String :=
  (if p = "" then ["Password is required"] else []) ++
    (if p.data.length < 6 then ["Password must be at least 6 characters"] else []) ++
    (if !(p.data.any Char.isLower && p.data.any Char.isUpper && p.data.any Char.isDigit) then
      ["Password must contain at least one uppercase letter, one lowercase letter, and one number"]
    else [])

/-- Errors of the `phone` chain: trim, notEmpty, ten digits. -/
def phoneErrors (phone : String) : List String :=
  let v := strTrim phone
  (if v = "" then ["Phone number is required"] else []) ++
    (if !isTenDigits v then ["Phone number must be 10 digits"] else [])

/-- Errors of the `dateOfBirth` chain: notEmpty, isDate, then the custom
year-difference age rule. -/
def dobErrors (today : SDate) (dob : Option SDate) : List String :=
  match dob with
  | none => ["Date of birth is required", "Please provide a valid date"]
  | some d =>
      if !ageCheckPasses today d then
        ["You must be at least 18 years old to register"]
      else []

/-- Errors of the four address chains. -/
def addressErrors (a : Address) : List String :=
  (if strTrim a.street = "" then ["Street address is required"] else []) ++
    (if strTrim a.city = "" then ["City is required"] else []) ++
    (if strTrim a.state = "" then ["State is required"] else []) ++
    ((if strTrim a.zipCode = "" then ["Zip code is required"] else []) ++
      (if !isSixDigits (strTrim a.zipCode) then ["Zip code must be 6 digits"] else []))

/-- Errors of the optional `role` chain: skipped when absent, otherwise
isIn the three enumerated roles. -/
def roleErrors (r : Option String) : List String :=
  match r with
  | none => []
  | some s =>
      if s = "customer" || s = "agent" || s = "admin" then []
      else ["Role must be customer, agent, or admin"]

/-- `registerValidation`: the concatenated failures of all chains, in
declaration order (express-validator records every failing validator). -/
def registerErrors (today : SDate) (i : RegisterInput) : List String :=
  nameErrors i.name ++ emailErrors i.email ++ passwordErrors i.password ++
    phoneErrors i.phone ++ dobErrors today i.dateOfBirth ++
    addressErrors i.address ++ roleErrors i.role

/-- `loginValidation`: email trim/notEmpty/isEmail, password notEmpty. -/
def loginErrors (l : LoginInput) : List String :=
  (let v := strTrim l.email;
    (if v = "" then ["Email is required"] else []) ++
      (if !isEmailShaped v then ["Please provide a valid email"] else [])) ++
    (if l.password = "" then ["Password is required"] else [])

/-- The sanitizers of the register chains, applied to `req.body` before
the controller runs: trims, plus `normalizeEmail` on the email. -/
def sanitizeRegister (i : RegisterInput) : RegisterInput :=
  { i with
    name := strTrim i.name,
    email := normalizeEmail (strTrim i.email),
    phone := strTrim i.phone,
    address :=
      { street := strTrim i.address.street,
        city := strTrim i.address.city,
        state := strTrim i.address.state,
        zipCode := strTrim i.address.zipCode } }

/-- JavaScript `role || 'customer'`: the empty string is falsy too. -/
def roleOrDefault (r : Option String) : String :=
  match r with
  | none => "customer"
  | some s => if s = "" then "customer" else s

/-- The process environment of the handlers: the request clock (for the
age rule), bcrypt (`bhash`/`bcompare`) and the JWT signer (`sign`,
modelling `generateToken`). -/
structure Env where
  today : SDate
  bhash : String → String
  bcompare : String → String → Bool
  sign : Nat → String

/-- The public user summary returned by register and login:
exactly id, name, email, role. -/
structure UserSummary where
  id : Nat
  name : String
  email : String
  role : String
deriving Repr, DecidableEq

/-- The profile returned by getMe: every schema field except the
password digest. -/
structure UserProfile where
  id : Nat
  name : String
  email : String
  phone : String
  dateOfBirth : Option SDate
  address : Address
  role : String
  isActive : Bool
  createdAt : Nat
deriving Repr, DecidableEq

/-- The `user:` object of the register and login success bodies. -/
def summaryOf (u : User) : UserSummary :=
  { id := u.id, name := u.name, email := u.email, role := u.role }

/-- The `user:` object of the getMe success body. -/
def profileOf (u : User) : UserProfile :=
  { id := u.id, name := u.name, email := u.email, phone := u.phone,
    dateOfBirth := u.dateOfBirth, address := u.address, role := u.role,
    isActive := u.isActive, createdAt := u.createdAt }

/-- A JSON response of the service: the HTTP status plus the envelope
fields actually produced by the handlers (absent JSON keys are `none`). -/
structure Response where
  status : Nat
  success : Bool
  message : Option String := none
  errors : Option (List String) := none
  error : Option String := none
  token : Option String := none
  user : Option UserSummary := none
  profile : Option UserProfile := none
  stack : Option String := none
deriving Repr, DecidableEq

/-- 400 body of a failed express-validator check:
`{success:false, errors: errors.array()}` — note: no message field. -/
def validationFailResp (errs : List String) : Response :=
  { status := 400, success := false, errors := some errs }

/-- 400 body when the email is already registered. -/
def userExistsResp : Response :=
  { status := 400, success := false,
    message := some "User already exists with this email" }

/-- 201 body of a successful registration. -/
def registerSuccessResp (tok : String) (s : UserSummary) : Response :=
  { status := 201, success := true,
    message := some "User registered successfully",
    token := some tok, user := some s }

/-- 401 body shared by the user-not-found and password-mismatch login
failures. -/
def invalidCredResp : Response :=
  { status := 401, success := false,
    message := some "Invalid email or password" }

/-- 401 body of a login against a deactivated account. -/
def loginDeactivatedResp : Response :=
  { status := 401, success := false,
    message := some "Account is deactivated. Please contact support." }

/-- 200 body of a successful login. -/
def loginSuccessResp (tok : String) (s : UserSummary) : Response :=
  { status := 200, success := true, message := some "Login successful",
    token := some tok, user := some s }

/-- 404 body of getMe when the account vanished. -/
def meNotFoundResp : Response :=
  { status := 404, success := false, message := some "User not found" }

/-- 200 body of getMe. -/
def meSuccessResp (p : UserProfile) : Response :=
  { status := 200, success := true, profile := some p }

/-- 401 body of protect when no bearer token is present. -/
def noTokenResp : Response :=
  { status := 401, success := false,
    message := some "Not authorized, no token provided" }

/-- 401 body of protect on a malformed/invalidly signed token. -/
def invalidTokenResp : Response :=
  { status := 401, success := false, message := some "Invalid token" }

/-- 401 body of protect on an expired token. -/
def expiredTokenResp : Response :=
  { status := 401, success := false,
    message := some "Token expired, please login again" }

/-- 401 body of protect when the token's user no longer exists. -/
def protectUserNotFoundResp : Response :=
  { status := 401, success := false, message := some "User not found" }

/-- 401 body of protect on a deactivated account. -/
def deactivatedResp : Response :=
  { status := 401, success := false,
    message := some "Account is deactivated" }

/-- 500 body of protect's generic catch branch. -/
def authServerErrorResp (m : String) : Response :=
  { status := 500, success := false,
    message := some "Server error in authentication", error := some m }

/-- `User.findOne({email})`: the schema's `lowercase: true` setter is
applied to the query filter (Mongoose runs schema setters on filters),
and stored emails were lowercased on save. -/
def findByEmail (db : List User) (e : String) : Option User :=
  db.find? (fun u => u.email == strLower e)

/-- `User.findById`. -/
def findById (db : List User) (i : Nat) : Option User :=
  db.find? (fun u => u.id == i)

/-- The document handed to `User.create({...})` by the register
controller: the sanitized body fields, the schema's lowercase setter on
the email, the `role || 'customer'` default, the isActive default of
true, and a fresh identifier. -/
def newUserDoc (db : List User) (body : RegisterInput) : User :=
  { id := db.length, name := body.name, email := strLower body.email,
    password := body.password, phone := body.phone,
    dateOfBirth := body.dateOfBirth, address := body.address,
    role := roleOrDefault body.role, isActive := true,
    createdAt := db.length }

/-- The register controller plus its route validation: returns the
response and the resulting store.  Mirrors authController.registerUser:
validation check, duplicate-email lookup, create (schema lowercase
setter and pre-save hash hook), token issue, 201 summary. -/
def registerUser (env : Env) (db : List User) (i : RegisterInput) :
    Response × List User :=
  let errs := registerErrors env.today i
  if errs ≠ [] then (validationFailResp errs, db)
  else
    let body := sanitizeRegister i
    match findByEmail db body.email with
    | some _ => (userExistsResp, db)
    | none =>
        let saved := (preSaveHook env.bhash true (newUserDoc db body)).1
        (registerSuccessResp (env.sign db.length) (summaryOf saved),
          db ++ [saved])

/-- The login controller plus its route validation.  Mirrors
authController.loginUser: validation check, findOne with the password
selected, not-found 401, isActive 401, comparePassword 401, 200. -/
def loginUser (env : Env) (db : List User) (l : LoginInput) : Response :=
  let errs := loginErrors l
  if errs ≠ [] then validationFailResp errs
  else
    match findByEmail db (strTrim l.email) with
    | none => invalidCredResp
    | some u =>
        if !u.isActive then loginDeactivatedResp
        else if !comparePassword env.bcompare u l.password then invalidCredResp
        else loginSuccessResp (env.sign u.id) (summaryOf u)

/-- The getMe controller: findById of the authenticated id, 404 when the
account vanished, otherwise 200 with the digest-free profile. -/
def getMe (db : List User) (authenticatedUserId : Nat) : Response :=
  match findById db authenticatedUserId with
  | none => meNotFoundResp
  | some u => meSuccessResp (profileOf u)

/-- The global error handler: status `err.statusCode || 500` (0 is
falsy), message `err.message || 'Server Error'` ("" is falsy), stack
only in development mode. -/
def errorHandler (statusCode : Option Nat) (errMessage : Option String)
    (devMode : Bool) (stackText : String) : Response :=
  { status :=
      (match statusCode with
       | some c => if c = 0 then 500 else c
       | none => 500),
    success := false,
    message :=
      some (match errMessage with
            | some m => if m = "" then "Server Error" else m
            | none => "Server Error"),
    stack := if devMode then some stackText else none }

/-- Bearer-token extraction of the protect middleware:
`startsWith('Bearer')` (no trailing space in the source), then
`split(' ')[1]`; both `undefined` (no second part) and the empty string
are falsy in `if (!token)`. -/
def tokenFromHeader (authHeader : Option String) : Option String :=
  match authHeader with
  | none => none
  | some s =>
      if strStartsWith s "Bearer" then
        match (splitOnChar ' ' s).get? 1 with
        | some t => if t = "" then none else some t
        | none => none
      else none

/-- Outcome of `jwt.verify`: a decoded id, or one of the two recognised
JWT exceptions, or any other exception (caught by the generic branch). -/
inductive VerifyOutcome where
  | ok (id : Nat)
  | invalidTok
  | expiredTok
  | unexpected (msg : String)
deriving Repr, DecidableEq

/-- Outcome of the store lookup inside protect: a user, no user, or a
store exception (caught by the generic branch). -/
inductive LookupOutcome where
  | found (u : User)
  | missing
  | storeFail (msg : String)
deriving Repr, DecidableEq

/-- Result of the protect middleware: either a response is written, or
control proceeds to the protected handler with `req.user` attached. -/
inductive ProtectResult where
  | respond (r : Response)
  | proceed (u : User)
deriving Repr, DecidableEq

/-- The protect middleware.  Token extraction, `jwt.verify` (its two
recognised exception types mapped to their 401s, anything else to the
generic 500 catch), `findById(...).select('-password')` (modelled by
blanking the digest; a store exception also reaches the 500 catch),
the user-not-found 401, the isActive 401, then proceed. -/
def protect (authHeader : Option String) (verify : String → VerifyOutcome)
    (lookupById : Nat → LookupOutcome) : ProtectResult :=
  match tokenFromHeader authHeader with
  | none => .respond noTokenResp
  | some t =>
      match verify t with
      | .invalidTok => .respond invalidTokenResp
      | .expiredTok => .respond expiredTokenResp
      | .unexpected m => .respond (authServerErrorResp m)
      | .ok i =>
          match lookupById i with
          | .storeFail m => .respond (authServerErrorResp m)
          | .missing => .respond protectUserNotFoundResp
          | .found u =>
              let scrubbed := { u with password := "" }
              if !scrubbed.isActive then .respond deactivatedResp
              else .proceed scrubbed

/-- A concrete environment for closed evaluations: an injective toy
hasher whose `bcompare` accepts exactly its own hashes. -/
def demoEnv : Env :=
  { today := ⟨2026, 10, 12⟩,
    bhash := fun s => String.append "#" s,
    bcompare := fun p d => d == String.append "#" p,
    sign := fun n => String.append "tok" (toString n) }

/-- A concrete valid address. -/
def demoAddress : Address :=
  { street := "1 Rd", city := "C", state := "S", zipCode := "123456" }

/-- A concrete registration input passing every validation rule. -/
def demoRegInput : RegisterInput :=
  { name := "Jane Doe", email := "jane@ex.com", password := "Abcdef1",
    phone := "9876543210", dateOfBirth := some ⟨1990, 1, 1⟩,
    address := demoAddress, role := none }

/-- The same input with a dotted Gmail address. -/
def gmailRegInput : RegisterInput :=
  { demoRegInput with email := "j.ane@gmail.com" }

/-- The same input with a date of birth of 2008-12-31: aged 17 on
2026-10-12, turning 18 only at the end of the year. -/
def underageRegInput : RegisterInput :=
  { demoRegInput with dateOfBirth := some ⟨2008, 12, 31⟩ }

/-- The same input with an empty name, failing validation. -/
def emptyNameRegInput : RegisterInput :=
  { demoRegInput with name := "" }

/-- A concrete stored user. -/
def demoUser : User :=
  { id := 0, name := "Jane Doe", email := "jane@ex.com",
    password := "digest0", phone := "9876543210",
    dateOfBirth := some ⟨1990, 1, 1⟩, address := demoAddress,
    role := "customer", isActive := true, createdAt := 0 }

/-- C1: the claim says a save of an existing record with an unmodified
password leaves the stored digest unchanged.  The code's guard
`if (!this.isModified('password')) next();` has no `return`, so the
hook applies bcrypt to whatever is already stored on EVERY save (and
calls `next` twice on that path): for any hash function the resulting
digest is the hash of the old digest, and for an injective sample hash
it differs from the stored digest. -/
theorem preSave_rehashes_unmodified_password :
    (∀ (f : String → String) (u : User),
        (preSaveHook f false u).1.password = f u.password ∧
        (preSaveHook f false u).2 = 2) ∧
    (preSaveHook (fun s => String.append "rehash:" s) false demoUser).1.password
      ≠ demoUser.password := by
  refine ⟨fun f u => ⟨rfl, rfl⟩, ?_⟩
  decide

/-- C5: the claim says registration rejects exactly the under-18s,
including those whose 18th birthday falls later in the current year.
The code compares calendar years only: born 2008-12-31, on 2026-10-12
the subject is 17, yet the whole validation passes and registration
succeeds with 201. -/
theorem age_check_accepts_underage :
    registerErrors ⟨2026, 10, 12⟩ underageRegInput = [] ∧
    (registerUser demoEnv [] underageRegInput).1.status = 201 ∧
    ageCheckPasses ⟨2026, 10, 12⟩ ⟨2008, 12, 31⟩ = true ∧
    actualAgeYears ⟨2026, 10, 12⟩ ⟨2008, 12, 31⟩ = 17 := by
  decide

/-- C2 counterexample: registering the Gmail address "j.ane@gmail.com"
succeeds (201, token issued, stored as "jane@gmail.com" after
normalization), the hasher verifies its own hash, and yet logging in
with the very same credential strings fails 401, because the login
route does not normalize the email before the lookup. -/
theorem register_login_gmail_dots_counterexample :
    (registerUser demoEnv [] gmailRegInput).1.status = 201 ∧
    (registerUser demoEnv [] gmailRegInput).1.token = some "tok0" ∧
    demoEnv.bcompare "Abcdef1" (demoEnv.bhash "Abcdef1") = true ∧
    loginUser demoEnv (registerUser demoEnv [] gmailRegInput).2
      { email := "j.ane@gmail.com", password := "Abcdef1" } = invalidCredResp := by
  decide

/-- C8 counterexample: the 400 response to a register validation
failure is `{success:false, errors:[...]}` with NO message field, so
the claim that every error response always carries a message is false. -/
theorem validation_error_lacks_message :
    (registerUser demoEnv [] emptyNameRegInput).1.status = 400 ∧
    (registerUser demoEnv [] emptyNameRegInput).1.success = false ∧
    (registerUser demoEnv [] emptyNameRegInput).1.message = none ∧
    (registerUser demoEnv [] emptyNameRegInput).1.errors ≠ none := by
  decide

/-- A concrete deactivated user. -/
def demoInactiveUser : User :=
  { demoUser with isActive := false }

/-- A concrete token verifier accepting exactly "good" for user id 0. -/
def demoVerify : String → VerifyOutcome := fun t =>
  if t = "good" then VerifyOutcome.ok 0 else VerifyOutcome.invalidTok

/-- A concrete token verifier that reports "old" as expired. -/
def demoExpiredVerify : String → VerifyOutcome := fun t =>
  if t = "old" then VerifyOutcome.expiredTok else VerifyOutcome.ok 7

/-- A concrete store lookup resolving id 0 to the deactivated user. -/
def demoLookupInactive : Nat → LookupOutcome := fun i =>
  if i = 0 then LookupOutcome.found demoInactiveUser else LookupOutcome.missing

/-- C3: a valid, unexpired token that resolves to a stored user whose
isActive flag is false is rejected by the protect middleware with the
401 account-deactivated response, and the protected handler (the
`proceed` outcome) never runs — no revocation mechanism is consulted,
the flag alone decides. -/
theorem deactivated_user_protect_rejects (authHeader : Option String)
    (verify : String → VerifyOutcome) (lookupById : Nat → LookupOutcome)
    (t : String) (i : Nat) (u : User)
    (htok : tokenFromHeader authHeader = some t)
    (hver : verify t = VerifyOutcome.ok i)
    (hfind : lookupById i = LookupOutcome.found u)
    (hact : u.isActive = false) :
    protect authHeader verify lookupById = ProtectResult.respond deactivatedResp ∧
    ∀ v, protect authHeader verify lookupById ≠ ProtectResult.proceed v := by
  have h1 : protect authHeader verify lookupById =
      ProtectResult.respond deactivatedResp := by
    simp [protect, htok, hver, hfind, hact]
  exact ⟨h1, fun v hv => by rw [h1] at hv; exact ProtectResult.noConfusion hv⟩

/-- Closed instance of the C3 theorem at a concrete header, verifier,
store and deactivated user. -/
theorem deactivated_user_protect_rejects_witness :
    protect (some "Bearer good") demoVerify demoLookupInactive =
      ProtectResult.respond deactivatedResp ∧
    ∀ v, protect (some "Bearer good") demoVerify demoLookupInactive ≠
      ProtectResult.proceed v :=
  deactivated_user_protect_rejects (some "Bearer good") demoVerify
    demoLookupInactive "good" 0 demoInactiveUser (by decide) (by decide)
    (by decide) (by decide)

/-- C10: when the Authorization header is absent, does not start with
"Bearer", or has no second space-separated part (including the header
being exactly "Bearer"), protect answers the 401 no-token response —
for EVERY verifier and every store lookup, i.e. neither is consulted. -/
theorem no_token_cases_reject_without_verify (authHeader : Option String)
    (hcase : authHeader = none ∨
      ∃ s, authHeader = some s ∧
        (strStartsWith s "Bearer" = false ∨
          (splitOnChar ' ' s).get? 1 = none ∨
          (splitOnChar ' ' s).get? 1 = some "")) :
    ∀ (verify : String → VerifyOutcome) (lookupById : Nat → LookupOutcome),
      protect authHeader verify lookupById = ProtectResult.respond noTokenResp := by
  have hnone : tokenFromHeader authHeader = none := by
    rcases hcase with hn | ⟨s, hs, hc⟩
    · rw [hn]; rfl
    · rw [hs]
      unfold tokenFromHeader
      rcases hc with hb | h1 | h1
      · simp [hb]
      · rw [List.get?_eq_getElem?] at h1
        cases hsw : strStartsWith s "Bearer" <;> simp [hsw, h1]
      · rw [List.get?_eq_getElem?] at h1
        cases hsw : strStartsWith s "Bearer" <;> simp [hsw, h1]
  intro verify lookupById
  simp [protect, hnone]

/-- Closed instance of the C10 theorem: the header "Bearer" with no
second part is rejected with the no-token 401 under a concrete verifier
and store. -/
theorem no_token_cases_reject_without_verify_witness :
    protect (some "Bearer") demoVerify demoLookupInactive =
      ProtectResult.respond noTokenResp :=
  no_token_cases_reject_without_verify (some "Bearer")
    (Or.inr ⟨"Bearer", rfl, Or.inr (Or.inl (by decide))⟩)
    demoVerify demoLookupInactive

/-- C4: the login failure for an unknown email and the login failure
for a wrong password on an existing active account are one and the same
response value (status 401, message "Invalid email or password"), so a
caller cannot tell the two cases apart. -/
theorem login_failure_indistinguishable :
    (∀ (env : Env) (db : List User) (l : LoginInput),
        loginErrors l = [] →
        findByEmail db (strTrim l.email) = none →
        loginUser env db l = invalidCredResp) ∧
    (∀ (env : Env) (db : List User) (l : LoginInput) (u : User),
        loginErrors l = [] →
        findByEmail db (strTrim l.email) = some u →
        u.isActive = true →
        env.bcompare l.password u.password = false →
        loginUser env db l = invalidCredResp) := by
  constructor
  · intro env db l herr hfind
    simp [loginUser, herr, hfind]
  · intro env db l u herr hfind hact hcmp
    simp [loginUser, comparePassword, herr, hfind, hact, hcmp]

/-- Closed instances of both C4 branches: unknown email, and wrong
password for the stored demo user, both yield the identical response. -/
theorem login_failure_indistinguishable_witness :
    loginUser demoEnv [demoUser] { email := "nouser@ex.com", password := "x" } =
      invalidCredResp ∧
    loginUser demoEnv [demoUser] { email := "jane@ex.com", password := "wrong" } =
      invalidCredResp :=
  ⟨login_failure_indistinguishable.1 demoEnv [demoUser]
      { email := "nouser@ex.com", password := "x" } (by decide) (by decide),
   login_failure_indistinguishable.2 demoEnv [demoUser]
      { email := "jane@ex.com", password := "wrong" } demoUser
      (by decide) (by decide) (by decide) (by decide)⟩

/-- C9: a login against a stored but deactivated account answers the
401 account-deactivated response whatever the submitted password and
whatever the hasher (the two environments are unrelated), i.e. before
the password hasher could be invoked — and that message differs from
the generic invalid-email-or-password one, revealing that the account
exists. -/
theorem login_deactivated_before_hasher (env1 env2 : Env) (db : List User)
    (e p1 p2 : String) (u : User)
    (hval1 : loginErrors { email := e, password := p1 } = [])
    (hval2 : loginErrors { email := e, password := p2 } = [])
    (hfind : findByEmail db (strTrim e) = some u)
    (hact : u.isActive = false) :
    loginUser env1 db { email := e, password := p1 } = loginDeactivatedResp ∧
    loginUser env2 db { email := e, password := p2 } = loginDeactivatedResp ∧
    loginDeactivatedResp.message ≠ invalidCredResp.message := by
  refine ⟨?_, ?_, by decide⟩
  · simp [loginUser, hval1, hfind, hact]
  · simp [loginUser, hval2, hfind, hact]

/-- Closed instance of the C9 theorem: two different passwords against
the deactivated demo account, two different hasher environments, the
same deactivated response. -/
theorem login_deactivated_before_hasher_witness :
    loginUser demoEnv [demoInactiveUser]
      { email := "jane@ex.com", password := "Abcdef1" } = loginDeactivatedResp ∧
    loginUser { demoEnv with bcompare := fun _ _ => true } [demoInactiveUser]
      { email := "jane@ex.com", password := "totally-different" } =
      loginDeactivatedResp ∧
    loginDeactivatedResp.message ≠ invalidCredResp.message :=
  login_deactivated_before_hasher demoEnv
    { demoEnv with bcompare := fun _ _ => true } [demoInactiveUser]
    "jane@ex.com" "Abcdef1" "totally-different" demoInactiveUser
    (by decide) (by decide) (by decide) (by decide)

/-- C6: the protect middleware is the four-step state machine of the
spec, terminal on first failure: token extraction (else 401 no token),
verification (invalid → 401 invalid token, expired → 401 token expired,
any other exception → 500), user lookup (store exception → 500, absent
→ 401 user not found), isActive (false → 401 account deactivated), and
on full success it proceeds with the resolved digest-free user
attached; the four-plus-one 401 messages are pairwise distinct and the
unexpected-failure response is a 500, distinct from every 401. -/
theorem protect_state_machine (verify : String → VerifyOutcome)
    (lookupById : Nat → LookupOutcome) (authHeader : Option String) :
    (tokenFromHeader authHeader = none →
      protect authHeader verify lookupById = ProtectResult.respond noTokenResp) ∧
    (∀ t, tokenFromHeader authHeader = some t →
      (verify t = VerifyOutcome.invalidTok →
        protect authHeader verify lookupById =
          ProtectResult.respond invalidTokenResp) ∧
      (verify t = VerifyOutcome.expiredTok →
        protect authHeader verify lookupById =
          ProtectResult.respond expiredTokenResp) ∧
      (∀ m, verify t = VerifyOutcome.unexpected m →
        protect authHeader verify lookupById =
          ProtectResult.respond (authServerErrorResp m)) ∧
      (∀ i, verify t = VerifyOutcome.ok i →
        (lookupById i = LookupOutcome.missing →
          protect authHeader verify lookupById =
            ProtectResult.respond protectUserNotFoundResp) ∧
        (∀ m, lookupById i = LookupOutcome.storeFail m →
          protect authHeader verify lookupById =
            ProtectResult.respond (authServerErrorResp m)) ∧
        (∀ u, lookupById i = LookupOutcome.found u →
          (u.isActive = false →
            protect authHeader verify lookupById =
              ProtectResult.respond deactivatedResp) ∧
          (u.isActive = true →
            protect authHeader verify lookupById =
              ProtectResult.proceed { u with password := "" })))) ∧
    ([noTokenResp.message, invalidTokenResp.message, expiredTokenResp.message,
        protectUserNotFoundResp.message, deactivatedResp.message].Nodup ∧
      (∀ m, (authServerErrorResp m).status = 500) ∧
      noTokenResp.status = 401 ∧ invalidTokenResp.status = 401 ∧
      expiredTokenResp.status = 401 ∧ protectUserNotFoundResp.status = 401 ∧
      deactivatedResp.status = 401) := by
  refine ⟨?_, ?_, by decide, fun m => rfl, rfl, rfl, rfl, rfl, rfl⟩
  · intro hn; simp [protect, hn]
  · intro t ht
    refine ⟨?_, ?_, ?_, ?_⟩
    · intro hv; simp [protect, ht, hv]
    · intro hv; simp [protect, ht, hv]
    · intro m hv; simp [protect, ht, hv]
    · intro i hv
      refine ⟨?_, ?_, ?_⟩
      · intro hf; simp [protect, ht, hv, hf]
      · intro m hf; simp [protect, ht, hv, hf]
      · intro u hf
        exact ⟨fun ha => by simp [protect, ht, hv, hf, ha],
               fun ha => by simp [protect, ht, hv, hf, ha]⟩

/-- Closed instance of the C6 theorem: a concrete expired token takes
the expired branch. -/
theorem protect_state_machine_witness :
    protect (some "Bearer old") demoExpiredVerify demoLookupInactive =
      ProtectResult.respond expiredTokenResp :=
  (((protect_state_machine demoExpiredVerify demoLookupInactive
      (some "Bearer old")).2.1 "old" (by decide)).2.1) (by decide)

/-- C7: the public summary and the profile are independent of the
stored digest (they have no password field, so replacing the digest
changes nothing), and every success response of register, login and
getMe carries exactly such a summary (register/login: id, name, email,
role) or profile (getMe: all fields minus the digest) of a stored user,
with the other user-shaped field absent. -/
theorem success_responses_exclude_digest :
    (∀ (u : User) (d : String),
        summaryOf { u with password := d } = summaryOf u) ∧
    (∀ (u : User) (d : String),
        profileOf { u with password := d } = profileOf u) ∧
    (∀ (env : Env) (db : List User) (i : RegisterInput),
        (registerUser env db i).1.success = true →
        ∃ u, u ∈ (registerUser env db i).2 ∧
          (registerUser env db i).1.user = some (summaryOf u) ∧
          (registerUser env db i).1.profile = none) ∧
    (∀ (env : Env) (db : List User) (l : LoginInput),
        (loginUser env db l).success = true →
        ∃ u, u ∈ db ∧ (loginUser env db l).user = some (summaryOf u) ∧
          (loginUser env db l).profile = none) ∧
    (∀ (db : List User) (uid : Nat),
        (getMe db uid).success = true →
        ∃ u, u ∈ db ∧ (getMe db uid).profile = some (profileOf u) ∧
          (getMe db uid).user = none) := by
  refine ⟨fun u d => rfl, fun u d => rfl, ?_, ?_, ?_⟩
  · intro env db i hs
    by_cases herr : registerErrors env.today i = []
    · cases hf : findByEmail db (sanitizeRegister i).email with
      | some u =>
          exfalso
          simp [registerUser, herr, hf, userExistsResp] at hs
      | none =>
          refine ⟨(preSaveHook env.bhash true
              (newUserDoc db (sanitizeRegister i))).1, ?_, ?_, ?_⟩ <;>
            simp [registerUser, herr, hf, registerSuccessResp, preSaveHook]
    · exfalso
      simp [registerUser, herr, validationFailResp] at hs
  · intro env db l hs
    by_cases herr : loginErrors l = []
    · cases hf : findByEmail db (strTrim l.email) with
      | none =>
          exfalso
          simp [loginUser, herr, hf, invalidCredResp] at hs
      | some u =>
          cases hact : u.isActive with
          | false =>
              exfalso
              simp [loginUser, herr, hf, hact, loginDeactivatedResp] at hs
          | true =>
              cases hcmp : comparePassword env.bcompare u l.password with
              | false =>
                  exfalso
                  simp [loginUser, herr, hf, hact, hcmp, invalidCredResp] at hs
              | true =>
                  exact ⟨u, List.mem_of_find?_eq_some hf,
                    by simp [loginUser, herr, hf, hact, hcmp, loginSuccessResp],
                    by simp [loginUser, herr, hf, hact, hcmp, loginSuccessResp]⟩
    · exfalso
      simp [loginUser, herr, validationFailResp] at hs
  · intro db uid hs
    cases hf : findById db uid with
    | none =>
        exfalso
        simp [getMe, hf, meNotFoundResp] at hs
    | some u =>
        exact ⟨u, List.mem_of_find?_eq_some hf,
          by simp [getMe, hf, meSuccessResp],
          by simp [getMe, hf, meSuccessResp]⟩

/-- Closed instance of the C7 theorem: the registration success
response for the demo input. -/
theorem success_responses_exclude_digest_witness :
    ∃ u, u ∈ (registerUser demoEnv [] demoRegInput).2 ∧
      (registerUser demoEnv [] demoRegInput).1.user = some (summaryOf u) ∧
      (registerUser demoEnv [] demoRegInput).1.profile = none :=
  success_responses_exclude_digest.2.2.1 demoEnv [] demoRegInput (by decide)

/-- C8 (amended): every error response of the service (status ≥ 400,
from register, login, getMe, protect or the global error handler) has
success = false; a message field is present in every case EXCEPT the
400 validation-failure responses of register and login, which carry an
errors array instead of a message. -/
theorem error_envelope_amended :
    (∀ (env : Env) (db : List User) (i : RegisterInput),
        400 ≤ (registerUser env db i).1.status →
        (registerUser env db i).1.success = false ∧
        ((registerUser env db i).1.message.isSome ∨
          ((registerUser env db i).1.status = 400 ∧
            (registerUser env db i).1.errors.isSome))) ∧
    (∀ (env : Env) (db : List User) (l : LoginInput),
        400 ≤ (loginUser env db l).status →
        (loginUser env db l).success = false ∧
        ((loginUser env db l).message.isSome ∨
          ((loginUser env db l).status = 400 ∧
            (loginUser env db l).errors.isSome))) ∧
    (∀ (db : List User) (uid : Nat),
        400 ≤ (getMe db uid).status →
        (getMe db uid).success = false ∧ (getMe db uid).message.isSome) ∧
    (∀ (authHeader : Option String) (verify : String → VerifyOutcome)
        (lookupById : Nat → LookupOutcome) (r : Response),
        protect authHeader verify lookupById = ProtectResult.respond r →
        r.success = false ∧ r.message.isSome) ∧
    (∀ (sc : Option Nat) (m : Option String) (dev : Bool) (st : String),
        (errorHandler sc m dev st).success = false ∧
        (errorHandler sc m dev st).message.isSome) := by
  refine ⟨?_, ?_, ?_, ?_, ?_⟩
  · intro env db i hs
    by_cases herr : registerErrors env.today i = []
    · cases hf : findByEmail db (sanitizeRegister i).email with
      | some u => simp [registerUser, herr, hf, userExistsResp]
      | none =>
          exfalso
          simp [registerUser, herr, hf, registerSuccessResp] at hs
    · simp [registerUser, herr, validationFailResp]
  · intro env db l hs
    by_cases herr : loginErrors l = []
    · cases hf : findByEmail db (strTrim l.email) with
      | none => simp [loginUser, herr, hf, invalidCredResp]
      | some u =>
          cases hact : u.isActive with
          | false => simp [loginUser, herr, hf, hact, loginDeactivatedResp]
          | true =>
              cases hcmp : comparePassword env.bcompare u l.password with
              | false => simp [loginUser, herr, hf, hact, hcmp, invalidCredResp]
              | true =>
                  exfalso
                  simp [loginUser, herr, hf, hact, hcmp, loginSuccessResp] at hs
    · simp [loginUser, herr, validationFailResp]
  · intro db uid hs
    cases hf : findById db uid with
    | none => simp [getMe, hf, meNotFoundResp]
    | some u =>
        exfalso
        simp [getMe, hf, meSuccessResp] at hs
  · intro authHeader verify lookupById r hr
    cases htok : tokenFromHeader authHeader with
    | none =>
        simp [protect, htok] at hr
        simp [← hr, noTokenResp]
    | some t =>
        cases hv : verify t with
        | invalidTok =>
            simp [protect, htok, hv] at hr
            simp [← hr, invalidTokenResp]
        | expiredTok =>
            simp [protect, htok, hv] at hr
            simp [← hr, expiredTokenResp]
        | unexpected m =>
            simp [protect, htok, hv] at hr
            simp [← hr, authServerErrorResp]
        | ok i =>
            cases hf : lookupById i with
            | storeFail m =>
                simp [protect, htok, hv, hf] at hr
                simp [← hr, authServerErrorResp]
            | missing =>
                simp [protect, htok, hv, hf] at hr
                simp [← hr, protectUserNotFoundResp]
            | found u =>
                cases hact : u.isActive with
                | false =>
                    simp [protect, htok, hv, hf, hact] at hr
                    simp [← hr, deactivatedResp]
                | true =>
                    exfalso
                    simp [protect, htok, hv, hf, hact] at hr
  · intro sc m dev st
    cases m with
    | none => simp [errorHandler]
    | some s => cases hs : s == "" <;> simp_all [errorHandler]

/-- Closed instance of the C8 amended theorem: the getMe 404 response
on an empty store. -/
theorem error_envelope_amended_witness :
    (getMe [] 0).success = false ∧ (getMe [] 0).message.isSome :=
  error_envelope_amended.2.2.1 [] 0 (by decide)

/-- Helper: a conditional error list equal to [] forces its condition
to be false. -/
theorem cond_list_eq_nil {c : Prop} [Decidable c] {l : List String}
    (h : (if c then l else []) = []) (hl : l ≠ []) : ¬c := by
  intro hc
  rw [if_pos hc] at h
  exact hl h

/-- C2 (amended): for a registration input whose trimmed email is left
unchanged (up to lowercasing) by `normalizeEmail` — thereby excluding
dotted or +-subaddressed Gmail/googlemail local parts, googlemail.com
domains, +-subaddressed iCloud/Outlook-family addresses and
---subaddressed Yahoo-family addresses, which the sanitizer rewrites —
and a hasher whose verify accepts its own hash of the submitted
password, a successful registration (201) is followed by a successful
login (200 with a token) using the very same credential strings. -/
theorem register_then_login_succeeds (env : Env) (db : List User)
    (i : RegisterInput)
    (hhash : env.bcompare i.password (env.bhash i.password) = true)
    (hemail : strLower (normalizeEmail (strTrim i.email)) =
      strLower (strTrim i.email))
    (hok : (registerUser env db i).1.status = 201) :
    (loginUser env (registerUser env db i).2
        { email := i.email, password := i.password }).status = 200 ∧
    (loginUser env (registerUser env db i).2
        { email := i.email, password := i.password }).success = true ∧
    (loginUser env (registerUser env db i).2
        { email := i.email, password := i.password }).token.isSome = true := by
  by_cases herr : registerErrors env.today i = []
  case neg => simp [registerUser, herr, validationFailResp] at hok
  cases hf : findByEmail db (sanitizeRegister i).email with
  | some u => simp [registerUser, herr, hf, userExistsResp] at hok
  | none =>
    have hcomp := herr
    simp only [registerErrors, List.append_eq_nil] at hcomp
    obtain ⟨⟨⟨⟨⟨⟨hname, hemailE⟩, hpwE⟩, hphone⟩, hdob⟩, haddr⟩, hrole⟩ := hcomp
    simp only [emailErrors, List.append_eq_nil] at hemailE
    have htr : ¬(strTrim i.email = "") :=
      cond_list_eq_nil hemailE.1 (by simp)
    have hshB : ¬((!isEmailShaped (strTrim i.email)) = true) :=
      cond_list_eq_nil hemailE.2 (by simp)
    have hsh : isEmailShaped (strTrim i.email) = true := by
      simpa using hshB
    simp only [passwordErrors, List.append_eq_nil] at hpwE
    have hpw : ¬(i.password = "") :=
      cond_list_eq_nil hpwE.1.1 (by simp)
    have hval : loginErrors { email := i.email, password := i.password } = [] := by
      simp [loginErrors, htr, hsh, hpw]
    set sv : User :=
      (preSaveHook env.bhash true (newUserDoc db (sanitizeRegister i))).1
      with hsv_def
    have hdb2 : (registerUser env db i).2 = db ++ [sv] := by
      simp [registerUser, herr, hf]
    have hfdb : db.find? (fun u => u.email == strLower (strTrim i.email)) =
        none := by
      have hfx := hf
      simp only [findByEmail, sanitizeRegister] at hfx
      rwa [hemail] at hfx
    have hsvemail : sv.email = strLower (strTrim i.email) := by
      rw [hsv_def]
      simp [preSaveHook, newUserDoc, sanitizeRegister, hemail]
    have hfind2 : findByEmail (db ++ [sv]) (strTrim i.email) = some sv := by
      simp only [findByEmail, List.find?_append, hfdb]
      simp [List.find?_cons, hsvemail]
    have hsvact : sv.isActive = true := by
      rw [hsv_def]; rfl
    have hsvpwd : sv.password = env.bhash i.password := by
      rw [hsv_def]
      simp [preSaveHook, newUserDoc, sanitizeRegister]
    have hlogin : loginUser env (db ++ [sv])
        { email := i.email, password := i.password } =
        loginSuccessResp (env.sign sv.id) (summaryOf sv) := by
      simp [loginUser, hval, hfind2, comparePassword, hsvact, hsvpwd, hhash]
    rw [hdb2, hlogin]
    exact ⟨rfl, rfl, rfl⟩

/-- Closed instance of the C2 amended theorem: the demo (non-Gmail)
registration followed by a login with the same strings. -/
theorem register_then_login_succeeds_witness :
    (loginUser demoEnv (registerUser demoEnv [] demoRegInput).2
        { email := demoRegInput.email,
          password := demoRegInput.password }).status = 200 ∧
    (loginUser demoEnv (registerUser demoEnv [] demoRegInput).2
        { email := demoRegInput.email,
          password := demoRegInput.password }).success = true ∧
    (loginUser demoEnv (registerUser demoEnv [] demoRegInput).2
        { email := demoRegInput.email,
          password := demoRegInput.password }).token.isSome = true :=
  register_then_login_succeeds demoEnv [] demoRegInput (by decide) (by decide)
    (by decide)
